import Mathlib

/-
Verification of the collector pipeline of the scaling-bio repository.

The definitions below are a shallow embedding of src/collectors/.
Python ints become Int or Nat; pandas frames become lists of tuples or
structures; files on disk become Option-wrapped values (none = the file
is absent); exceptions become Except.  Floating-point scale arithmetic
(CellxGene) is modelled over ℚ with Int.floor standing for Python's
int() truncation of a non-negative value.
-/

namespace ScalingBio

/-- A single point in a timeseries (src/collectors/base.py, class
TimeseriesPoint).  Every collector constructs points with int(...), so
`cumulative` and `value` are integers here. -/
structure TimeseriesPoint where
  date : String
  cumulative : Int
  value : Option Int
deriving DecidableEq

/-- A metric tracked by a data source (src/collectors/base.py, class
Metric).  The optional formatted_value / description strings carry no
behaviour that any claim touches and are elided. -/
structure Metric where
  id : String
  name : String
  unit : String
  current_value : Int
deriving DecidableEq

/-- A timeseries for one metric (src/collectors/base.py, class Timeseries). -/
structure Timeseries where
  metric_id : String
  data : List TimeseriesPoint
deriving DecidableEq

/-- Output of one collector run (src/collectors/base.py, class
CollectorOutput).  The static SourceInfo block and the last_updated
wall-clock timestamp are elided: no claim concerns them. -/
structure CollectorOutput where
  metrics : List Metric
  timeseries : List Timeseries
  update_frequency : String
  data_license : Option String
deriving DecidableEq

/-- Failure modes of transform().  `missingData` models the exception
raised when the private raw store was never written: the explicit
ValueError in SRACollector.transform (sra_collector.py lines 100-101)
and the FileNotFoundError that pd.read_parquet raises in the other four
collectors.  `indexError` models pandas `.iloc[-1]` on an empty frame. -/
inductive TransformError
  | missingData
  | indexError
deriving DecidableEq

/-- Core loop of GenBankCollector.transform (genbank_collector.py lines
142-157) and, with identical code, UniProtCollector.transform
(uniprot_collector.py lines 170-185): the stored totals are already
cumulative; each period's increment is total - previous total, clamped
to zero when negative; the emitted cumulative is the raw stored total.
Input pairs are (year, stored total). -/
def cumPoints : Int → List (Nat × Nat) → List TimeseriesPoint
  | _, [] => []
  | prev, (y, total) :: rest =>
    let annual : Int := (total : Int) - prev
    let annual : Int := if annual < 0 then 0 else annual
    { date := toString y ++ "-01-01", value := some annual,
      cumulative := (total : Int) } :: cumPoints (total : Int) rest

/-- One parsed GenBank release-notes header row (genbank_collector.py,
growth_data entries).  The sequences column is only printed, never used
by the deduplication or by transform, and is elided. -/
structure GBRow where
  release : Nat
  year : Nat
  bases : Nat
deriving DecidableEq

/-- One step of the year-keyed deduplication state.  The state is kept
sorted by year; a new row replaces the stored row of its year exactly
when its release number is at least the stored one (a later duplicate
with the same release also wins, which matches the stable
sort_values(['year','release']) + drop_duplicates(keep='last')). -/
def upsertYear : List GBRow → GBRow → List GBRow
  | [], r => [r]
  | s :: m, r =>
    if r.year < s.year then r :: s :: m
    else if r.year = s.year then (if s.release ≤ r.release then r else s) :: m
    else s :: upsertYear m r

/-- Deduplication in GenBankCollector.collect (genbank_collector.py lines
126-130): sort by (year, release), keep the last row of each year, sort
by year.  Folding `upsertYear` computes the same list: for each year the
row with the greatest release, later occurrences winning ties, output
ascending by year. -/
def dedupByYearLatest (l : List GBRow) : List GBRow := l.foldl upsertYear []

/-- Points built by GenBankCollector.transform from the stored rows. -/
def genbankPoints (rows : List GBRow) : List TimeseriesPoint :=
  cumPoints 0 (rows.map fun r => (r.year, r.bases))

/-- GenBankCollector.transform (genbank_collector.py lines 137-186).
The store holds the deduplicated year rows; `none` means collect() never
ran and read_parquet raises.  current_value is df['bases'].iloc[-1]. -/
def genbankTransform (store : Option (List GBRow)) :
    Except TransformError CollectorOutput :=
  match store with
  | none => Except.error TransformError.missingData
  | some rows =>
    match rows.getLast? with
    | none => Except.error TransformError.indexError
    | some last =>
      Except.ok
        { metrics := [{ id := "bases", name := "Total Bases", unit := "bases",
                        current_value := (last.bases : Int) }],
          timeseries := [{ metric_id := "bases", data := genbankPoints rows }],
          update_frequency := "bimonthly",
          data_license := some "Public Domain" }

/-- UniProtCollector.transform (uniprot_collector.py lines 165-210).  The
store holds (year, sequences) rows sorted by year, written by collect(). -/
def uniprotTransform (store : Option (List (Nat × Nat))) :
    Except TransformError CollectorOutput :=
  match store with
  | none => Except.error TransformError.missingData
  | some rows =>
    match rows.getLast? with
    | none => Except.error TransformError.indexError
    | some last =>
      Except.ok
        { metrics := [{ id := "sequences", name := "Protein Sequences",
                        unit := "sequences", current_value := (last.2 : Int) }],
          timeseries := [{ metric_id := "sequences", data := cumPoints 0 rows }],
          update_frequency := "monthly",
          data_license := some "CC BY 4.0" }

/-- Cumulative sums: pairs (period, count) become triples
(period, count, running total).  This is the running_total loop of
PDBCollector.collect (pdb_collector.py lines 92-96) and the
cumsum columns of sra_collector.py line 133 and cellxgene_collector.py
lines 190-197. -/
def withCumulative : Nat → List (Nat × Nat) → List (Nat × Nat × Nat)
  | _, [] => []
  | acc, (m, c) :: t => (m, c, acc + c) :: withCumulative (acc + c) t

/-- Representative date string of a period.  Periods are abstracted to
Nat keys ordered like the calendar periods they stand for; the exact
"%Y-%m-%d" rendering carries no behaviour any claim touches. -/
def monthDate (m : Nat) : String := toString m

/-- Collector cumulative sequences, for stating the ordering invariant:
the list of `cumulative` fields of each emitted timeseries, in emitted
order, or [] when transform failed. -/
def emittedCumulatives (o : Except TransformError CollectorOutput) :
    List (List Int) :=
  match o with
  | Except.ok out => out.timeseries.map fun ts => ts.data.map fun p => p.cumulative
  | Except.error _ => []

/-- Point lists of each emitted timeseries, or [] when transform failed. -/
def emittedPointLists (o : Except TransformError CollectorOutput) :
    List (List TimeseriesPoint) :=
  match o with
  | Except.ok out => out.timeseries.map fun ts => ts.data
  | Except.error _ => []

/-- A list of integers is non-decreasing step by step. -/
def cumulativeNondecreasing (l : List Int) : Prop :=
  List.Chain' (fun a b : Int => a ≤ b) l

/-- Boolean form of `cumulativeNondecreasing`, for evaluation. -/
def nondecIntB : List Int → Bool
  | [] => true
  | [_] => true
  | a :: b :: t => decide (a ≤ b) && nondecIntB (b :: t)

lemma nondecIntB_iff : ∀ l : List Int,
    nondecIntB l = true ↔ cumulativeNondecreasing l
  | [] => by simp [nondecIntB, cumulativeNondecreasing]
  | [a] => by simp [nondecIntB, cumulativeNondecreasing]
  | a :: b :: t => by
    unfold nondecIntB cumulativeNondecreasing
    rw [Bool.and_eq_true, decide_eq_true_iff, List.chain'_cons]
    exact and_congr Iff.rfl (nondecIntB_iff (b :: t))

instance (l : List Int) : Decidable (cumulativeNondecreasing l) :=
  decidable_of_iff _ (nondecIntB_iff l)

/-- Month-keyed record counting of SRACollector.transform
(sra_collector.py line 132, combined.groupby('month').size()).  The
state is kept sorted ascending by month, as pandas groupby sorts keys;
each record bumps its month's count by one. -/
def bumpMonth : List (Nat × Nat) → Nat → List (Nat × Nat)
  | [], m => [(m, 1)]
  | (k, c) :: t, m =>
    if m < k then (m, 1) :: (k, c) :: t
    else if m = k then (k, c + 1) :: t
    else (k, c) :: bumpMonth t m

/-- Per-month record counts from the parsed publication dates.  A `none`
date is a row whose date failed to parse (pd.to_datetime errors='coerce'
followed by dropna, sra_collector.py lines 128-129). -/
def sraMonthlyCounts (dates : List (Option Nat)) : List (Nat × Nat) :=
  (dates.filterMap id).foldl bumpMonth []

/-- Timeseries points of SRACollector.transform (sra_collector.py lines
130-145): month counts, running cumulative, one point per month. -/
def sraPoints (dates : List (Option Nat)) : List TimeseriesPoint :=
  (withCumulative 0 (sraMonthlyCounts dates)).map fun t =>
    { date := monthDate t.1, value := some (t.2.1 : Int),
      cumulative := (t.2.2 : Int) }

/-- SRACollector.transform (sra_collector.py lines 96-165).  The store is
the list of parquet files, each a list of per-row parsed publication
dates; glob returning no files (store directory absent or empty) raises
the ValueError of lines 100-101.  The date column is taken as present
(the filename-fallback branch of line 126 is out of every claim's
scope).  current_value is the final cumulative, or 0 when no month
survived (line 147). -/
def sraTransform (files : List (List (Option Nat))) :
    Except TransformError CollectorOutput :=
  if files.isEmpty then Except.error TransformError.missingData
  else
    let monthly := withCumulative 0 (sraMonthlyCounts files.flatten)
    let total : Int :=
      match monthly.getLast? with
      | some t => (t.2.2 : Int)
      | none => 0
    Except.ok
      { metrics := [{ id := "sequences", name := "Sequencing Runs",
                      unit := "runs", current_value := total }],
        timeseries := [{ metric_id := "sequences",
                         data := sraPoints files.flatten }],
        update_frequency := "weekly",
        data_license := some "Public Domain" }

/-- PDBCollector.collect (pdb_collector.py lines 92-99): yearly counts
from the search API get a running cumulative before being stored.
Input pairs are (year, annual count). -/
def pdbCollectRows (annuals : List (Nat × Nat)) : List (Nat × Nat × Nat) :=
  withCumulative 0 annuals

/-- PDBCollector.transform (pdb_collector.py lines 102-134).  The store
holds (year, annual, cumulative) rows; `none` means collect() never ran
and read_parquet raises.  current_value is df['cumulative'].iloc[-1]. -/
def pdbTransform (store : Option (List (Nat × Nat × Nat))) :
    Except TransformError CollectorOutput :=
  match store with
  | none => Except.error TransformError.missingData
  | some rows =>
    match rows.getLast? with
    | none => Except.error TransformError.indexError
    | some last =>
      Except.ok
        { metrics := [{ id := "structures", name := "Protein Structures",
                        unit := "structures", current_value := (last.2.2 : Int) }],
          timeseries := [{ metric_id := "structures",
                           data := rows.map fun t =>
                             { date := toString t.1 ++ "-01-01",
                               value := some (t.2.1 : Int),
                               cumulative := (t.2.2 : Int) } }],
          update_frequency := "weekly",
          data_license := some "CC0 1.0" }

/-- Month-keyed cell-count summation, sorted ascending by month: the
groupby('month').agg(cell_count='sum') of cellxgene_collector.py lines
193-197 applied to the date-sorted datasets. -/
def addMonthCount : List (Nat × Nat) → Nat × Nat → List (Nat × Nat)
  | [], p => [p]
  | (k, c) :: t, p =>
    if p.1 < k then p :: (k, c) :: t
    else if p.1 = k then (k, c + p.2) :: t
    else (k, c) :: addMonthCount t p

/-- Per-month summed cell counts of the dated datasets.  Input pairs are
(publication month, dataset cell_count). -/
def cellxgeneMonthly (dated : List (Nat × Nat)) : List (Nat × Nat) :=
  dated.foldl addMonthCount []

/-- Datasets that survive date resolution (cellxgene_collector.py lines
179-183): rows whose collection_doi is present and resolves through the
publication-date mapping.  Pairs are (collection_doi?, cell_count). -/
def cxDated (datasets : List (Option String × Nat)) (pub : String → Option Nat) :
    List (Nat × Nat) :=
  datasets.filterMap fun p =>
    match p.1 with
    | none => none
    | some doi => (pub doi).map fun m => (m, p.2)

/-- Monthly rows (month, cell sum, cumulative) of cellxgene transform.
Sorting the datasets by publication date, taking the running cumulative
and then the last cumulative within each month (lines 189-197) yields
exactly the prefix sums of the per-month sums, which is what this
computes. -/
def cxMonthly (dated : List (Nat × Nat)) : List (Nat × Nat × Nat) :=
  withCumulative 0 (cellxgeneMonthly dated)

/-- Locally summed total of cellxgene transform (line 201):
monthly['cum_cells'].iloc[-1] when the frame is non-empty, else 1. -/
def cxTotal (dated : List (Nat × Nat)) : Nat :=
  match (cxMonthly dated).getLast? with
  | some t => t.2.2
  | none => 1

/-- Scaled timeseries points of CellxGeneCollector.transform (lines
200-212): every value and cumulative is multiplied by the single factor
official_total / locally_summed_total and truncated to an integer.
Int.floor models Python int() on these non-negative products. -/
def cellxgeneScaledPoints (official : Nat) (dated : List (Nat × Nat)) :
    List TimeseriesPoint :=
  let scale : ℚ := (official : ℚ) / (cxTotal dated : ℚ)
  (cxMonthly dated).map fun t =>
    { date := monthDate t.1,
      value := some (Int.floor ((t.2.1 : ℚ) * scale)),
      cumulative := Int.floor ((t.2.2 : ℚ) * scale) }

/-- CellxGeneCollector.transform (cellxgene_collector.py lines 161-232).
The store holds the official unique_cell_count from summary.parquet and
the dataset metadata rows; `none` means collect() never ran and the
first read_parquet raises.  `pub` is the DOI to publication-period
mapping produced by _get_publication_dates (whose caching and retry
behaviour is modelled separately below). -/
def cellxgeneTransform (store : Option (Nat × List (Option String × Nat)))
    (pub : String → Option Nat) : Except TransformError CollectorOutput :=
  match store with
  | none => Except.error TransformError.missingData
  | some s =>
    Except.ok
      { metrics := [{ id := "cells", name := "Single Cells", unit := "cells",
                      current_value := (s.1 : Int) }],
        timeseries := [{ metric_id := "cells",
                         data := cellxgeneScaledPoints s.1 (cxDated s.2 pub) }],
        update_frequency := "quarterly",
        data_license := some "CC BY 4.0" }

/-- Outcome of one CrossRef lookup attempt inside
CellxGeneCollector._fetch_single_doi (cellxgene_collector.py lines
93-113).  `ok` is HTTP 200 (the created date may still be absent from
the payload); `otherStatus` is any other HTTP status (e.g. 500), which
falls through every branch of the if/elif chain; `connectionFailed` is
any exception other than Timeout, the `except Exception: pass` arm —
connection errors land here. -/
inductive FetchOutcome
  | ok (date : Option String)
  | rateLimited
  | notFound
  | timedOut
  | connectionFailed
  | otherStatus
deriving DecidableEq

/-- Result of _fetch_single_doi: the resolved date (none both for a 404
and for exhausted retries), the backoff delays slept in order, and how
many attempts were made. -/
structure FetchResult where
  date : Option String
  delays : List Nat
  attemptsUsed : Nat
deriving DecidableEq

/-- Attempt loop of _fetch_single_doi (cellxgene_collector.py lines
93-115).  `out n` is the outcome of attempt n; `fuel` is the number of
attempts left out of max_retries = 3; `delays` accumulates the
time.sleep(2 ** attempt) calls in reverse.  HTTP 200 and 404 return at
once; 429 and Timeout sleep 2^attempt then retry; any other status or
exception retries with no sleep; an exhausted loop returns None. -/
def fetchGo (out : Nat → FetchOutcome) : Nat → Nat → List Nat → FetchResult
  | attempt, 0, delays =>
    { date := none, delays := delays.reverse, attemptsUsed := attempt }
  | attempt, fuel + 1, delays =>
    match out attempt with
    | FetchOutcome.ok d =>
      { date := d, delays := delays.reverse, attemptsUsed := attempt + 1 }
    | FetchOutcome.notFound =>
      { date := none, delays := delays.reverse, attemptsUsed := attempt + 1 }
    | FetchOutcome.rateLimited => fetchGo out (attempt + 1) fuel (2 ^ attempt :: delays)
    | FetchOutcome.timedOut => fetchGo out (attempt + 1) fuel (2 ^ attempt :: delays)
    | FetchOutcome.connectionFailed => fetchGo out (attempt + 1) fuel delays
    | FetchOutcome.otherStatus => fetchGo out (attempt + 1) fuel delays

/-- CellxGeneCollector._fetch_single_doi with max_retries = 3.  The
pd.isna(doi) early return of line 90 concerns a NaN key and is outside
every claim's scope. -/
def fetchSingleDoi (out : Nat → FetchOutcome) : FetchResult :=
  fetchGo out 0 3 []

/-- Transient outcomes the spec declares retryable: timeout, connection
error, HTTP 429. -/
def declaredTransient : FetchOutcome → Bool
  | FetchOutcome.rateLimited => true
  | FetchOutcome.timedOut => true
  | FetchOutcome.connectionFailed => true
  | _ => false

/-- Claim C6's retry policy, formalised: whenever attempt i was repeated
(a later attempt exists), the outcome of attempt i was a declared
transient failure and an exponential backoff delay 2^i was slept. -/
def repeatedOnlyOnDeclared (out : Nat → FetchOutcome) : Prop :=
  ∀ i < 3, i + 1 < (fetchSingleDoi out).attemptsUsed →
    declaredTransient (out i) = true ∧ (2 ^ i) ∈ (fetchSingleDoi out).delays

instance (out : Nat → FetchOutcome) : Decidable (repeatedOnlyOnDeclared out) := by
  unfold repeatedOnlyOnDeclared; infer_instance

/-- Observable events of CellxGeneCollector._get_publication_dates
(cellxgene_collector.py lines 137-153): a lookup future completing (its
result is recorded in the in-process dicts), and the durable cache file
being written by _save_doi_cache. -/
inductive CacheEvent
  | completed (doi : String)
  | savedCache
deriving DecidableEq

/-- Cache lookup: the JSON cache is a key to optional-date mapping
(cellxgene_collector.py lines 74-80). -/
def cacheLookup (cache : List (String × Option String)) (k : String) :
    Option (Option String) :=
  (cache.find? fun p => p.1 == k).map Prod.snd

/-- Event trace of _get_publication_dates (lines 119-153): cached DOIs
produce no events; when any DOI must be fetched, each completion is
recorded in memory as it arrives (in `order`, the as_completed order of
the uncached DOIs) and _save_doi_cache runs once after the loop. -/
def getPubDatesEvents (cache : List (String × Option String))
    (dois : List String) (order : List String) : List CacheEvent :=
  let toFetch := dois.filter fun d => (cacheLookup cache d).isNone
  if toFetch.isEmpty then []
  else order.map CacheEvent.completed ++ [CacheEvent.savedCache]

/-- Claim C7's persistence discipline, formalised over the event trace:
between any two lookup completions the durable cache was written, so no
completed result waits in memory while another lookup completes. -/
def immediatelyPersisted (evs : List CacheEvent) : Prop :=
  ∀ i < evs.length, ∀ j < evs.length,
    (i < j ∧ evs.getD i CacheEvent.savedCache ≠ CacheEvent.savedCache ∧
      evs.getD j CacheEvent.savedCache ≠ CacheEvent.savedCache) →
    ∃ k, k < j ∧ (i < k ∧ evs.getD k CacheEvent.savedCache = CacheEvent.savedCache)

instance (evs : List CacheEvent) : Decidable (immediatelyPersisted evs) := by
  unfold immediatelyPersisted; infer_instance

/-- The five collector implementations registered at startup
(src/collectors/registry.py). -/
inductive CollectorTag
  | sra
  | cellxgene
  | pdb
  | genbank
  | uniprot
deriving DecidableEq

/-- The source_id property of each collector class (sra_collector.py
lines 20-22, cellxgene_collector.py lines 29-31, pdb_collector.py lines
23-25, genbank_collector.py lines 39-41, uniprot_collector.py lines
28-30). -/
def sourceId : CollectorTag → String
  | CollectorTag.sra => "sra"
  | CollectorTag.cellxgene => "cellxgene"
  | CollectorTag.pdb => "pdb"
  | CollectorTag.genbank => "genbank"
  | CollectorTag.uniprot => "uniprot"

/-- register_collector (registry.py lines 11-13): Python dict assignment
keeps the position of an existing key and appends a new one. -/
def registerCollector (reg : List (String × CollectorTag)) (id : String)
    (c : CollectorTag) : List (String × CollectorTag) :=
  if reg.any fun p => p.1 == id then
    reg.map fun p => if p.1 == id then (id, c) else p
  else reg ++ [(id, c)]

/-- Registered ids in registration order (list(COLLECTORS.keys())). -/
def registryKeys (reg : List (String × CollectorTag)) : List String :=
  reg.map Prod.fst

/-- Dictionary lookup COLLECTORS[source_id]. -/
def lookupCollector (reg : List (String × CollectorTag)) (id : String) :
    Option CollectorTag :=
  (reg.find? fun p => p.1 == id).map Prod.snd

/-- Python repr of the key list, as interpolated into the error message
of registry.py line 19: ['sra', 'cellxgene', ...]. -/
def renderKeys (keys : List String) : String :=
  "[" ++ String.intercalate ", " (keys.map fun k => "\x27" ++ k ++ "\x27") ++ "]"

/-- Message of the ValueError raised by get_collector (registry.py line
19); the spec names this failure UnknownSourceError. -/
def unknownCollectorMessage (id : String) (keys : List String) : String :=
  "Unknown collector: " ++ id ++ ". Available: " ++ renderKeys keys

/-- get_collector (registry.py lines 16-20): an absent id raises, a
present id instantiates the registered class. -/
def getCollector (reg : List (String × CollectorTag)) (id : String) :
    Except String CollectorTag :=
  match lookupCollector reg id with
  | some c => Except.ok c
  | none => Except.error (unknownCollectorMessage id (registryKeys reg))

/-- _register_all (registry.py lines 29-62): the five collectors are
registered in source order.  All five import successfully in the model;
a module whose import fails would simply be skipped. -/
def defaultRegistry : List (String × CollectorTag) :=
  registerCollector
    (registerCollector
      (registerCollector
        (registerCollector
          (registerCollector [] "sra" CollectorTag.sra)
          "cellxgene" CollectorTag.cellxgene)
        "pdb" CollectorTag.pdb)
      "genbank" CollectorTag.genbank)
    "uniprot" CollectorTag.uniprot

/-- Output file name written by BaseCollector.run (base.py line 146):
os.path.join(output_dir, f-string of source_id + ".json"), basename
part. -/
def runFileName (c : CollectorTag) : String := sourceId c ++ ".json"

/-- Consecutive-point consistency as the spec states it, exactly:
whenever the later point carries a value, its cumulative is the earlier
cumulative plus that value. -/
def stepExact (p q : TimeseriesPoint) : Prop :=
  ∀ v, q.value = some v → q.cumulative = p.cumulative + v

/-- Consecutive-point consistency up to one unit, the form integer
truncation of the scaled values leaves intact. -/
def stepWithin1 (p q : TimeseriesPoint) : Prop :=
  ∀ v, q.value = some v →
    p.cumulative + v ≤ q.cumulative ∧ q.cumulative ≤ p.cumulative + v + 1

/-- First-point consistency: when the opening point carries a value, its
cumulative equals that value. -/
def firstOK (pts : List TimeseriesPoint) : Prop :=
  ∀ p ∈ pts.head?, ∀ v, p.value = some v → p.cumulative = v

/-- Relative tolerance 1e-6 between an actual and an expected integer,
multiplied out to stay in ℤ: |actual - expected| ≤ 1e-6 · |expected|. -/
def relTol6 (actual expected : Int) : Prop :=
  1000000 * (actual - expected).natAbs ≤ expected.natAbs

instance (a b : Int) : Decidable (relTol6 a b) := by
  unfold relTol6; infer_instance

/-- Boolean check over consecutive pairs of a point list. -/
def chainB (f : TimeseriesPoint → TimeseriesPoint → Bool) :
    List TimeseriesPoint → Bool
  | [] => true
  | [_] => true
  | p :: q :: t => f p q && chainB f (q :: t)

/-- Spec consistency property of one point list, decidably: the first
point's cumulative equals its value and each later valued point's
cumulative equals the previous cumulative plus the value, within
relative tolerance 1e-6. -/
def consistentRelB (pts : List TimeseriesPoint) : Bool :=
  (match pts.head? with
   | some p =>
     match p.value with
     | some v => decide (p.cumulative = v)
     | none => true
   | none => true)
  && chainB (fun p q =>
      match q.value with
      | some v => decide (relTol6 q.cumulative (p.cumulative + v))
      | none => true) pts

lemma cumPoints_head (prev : Int) (y t : Nat) (r : List (Nat × Nat)) :
    (cumPoints prev ((y, t) :: r)).head? = some
      { date := toString y ++ "-01-01",
        value := some (if (t : Int) - prev < 0 then 0 else (t : Int) - prev),
        cumulative := (t : Int) } := rfl

lemma cumPoints_cum_chain (l : List (Nat × Nat))
    (h : List.Chain' (fun a b : Nat × Nat => a.2 ≤ b.2) l) : ∀ prev : Int,
    List.Chain' (fun p q : TimeseriesPoint => p.cumulative ≤ q.cumulative)
      (cumPoints prev l) := by
  induction l with
  | nil => intro prev; simp [cumPoints]
  | cons x rest ih =>
    intro prev
    obtain ⟨y, t⟩ := x
    obtain ⟨h1, h2⟩ := List.chain'_cons'.mp h
    show List.Chain' _ (_ :: cumPoints (t : Int) rest)
    refine List.chain'_cons'.mpr ⟨?_, ih h2 (t : Int)⟩
    intro q hq
    cases rest with
    | nil => simp [cumPoints] at hq
    | cons z rs =>
      obtain ⟨y', t'⟩ := z
      rw [cumPoints_head] at hq
      simp only [Option.mem_def, Option.some_inj] at hq
      subst hq
      have ht : t ≤ t' := h1 (y', t') rfl
      show (t : Int) ≤ (t' : Int)
      exact_mod_cast ht

lemma cumPoints_step_chain (l : List (Nat × Nat))
    (h : List.Chain' (fun a b : Nat × Nat => a.2 ≤ b.2) l) : ∀ prev : Int,
    List.Chain' stepExact (cumPoints prev l) := by
  induction l with
  | nil => intro prev; simp [cumPoints]
  | cons x rest ih =>
    intro prev
    obtain ⟨y, t⟩ := x
    obtain ⟨h1, h2⟩ := List.chain'_cons'.mp h
    show List.Chain' _ (_ :: cumPoints (t : Int) rest)
    refine List.chain'_cons'.mpr ⟨?_, ih h2 (t : Int)⟩
    intro q hq
    cases rest with
    | nil => simp [cumPoints] at hq
    | cons z rs =>
      obtain ⟨y', t'⟩ := z
      rw [cumPoints_head] at hq
      simp only [Option.mem_def, Option.some_inj] at hq
      subst hq
      have ht : t ≤ t' := h1 (y', t') rfl
      intro v hv
      simp only [Option.some_inj] at hv
      have hnn : ¬ ((t' : Int) - (t : Int) < 0) := by
        simp only [not_lt, sub_nonneg]
        exact_mod_cast ht
      rw [if_neg hnn] at hv
      subst hv
      simp

lemma cumPoints_zero_first (l : List (Nat × Nat)) : firstOK (cumPoints 0 l) := by
  cases l with
  | nil => intro p hp; simp [cumPoints] at hp
  | cons x r =>
    obtain ⟨y, t⟩ := x
    intro p hp v hv
    rw [cumPoints_head] at hp
    simp only [Option.mem_def, Option.some_inj] at hp
    subst hp
    simp only [Option.some_inj] at hv
    have hnn : ¬ ((t : Int) - 0 < 0) := by simp
    rw [if_neg hnn, sub_zero] at hv
    subst hv
    rfl

lemma wc_head (acc m c : Nat) (t : List (Nat × Nat)) :
    (withCumulative acc ((m, c) :: t)).head? = some (m, c, acc + c) := rfl

lemma wc_cum_chain (l : List (Nat × Nat)) : ∀ acc : Nat,
    List.Chain' (fun a b : Nat × Nat × Nat => a.2.2 ≤ b.2.2)
      (withCumulative acc l) := by
  induction l with
  | nil => intro acc; simp [withCumulative]
  | cons x rest ih =>
    intro acc
    obtain ⟨m, c⟩ := x
    show List.Chain' _ (_ :: withCumulative (acc + c) rest)
    refine List.chain'_cons'.mpr ⟨?_, ih (acc + c)⟩
    intro q hq
    cases rest with
    | nil => simp [withCumulative] at hq
    | cons z rs =>
      obtain ⟨m', c'⟩ := z
      rw [wc_head] at hq
      simp only [Option.mem_def, Option.some_inj] at hq
      subst hq
      exact Nat.le_add_right _ _

lemma wc_sum_chain (l : List (Nat × Nat)) : ∀ acc : Nat,
    List.Chain' (fun a b : Nat × Nat × Nat => b.2.2 = a.2.2 + b.2.1)
      (withCumulative acc l) := by
  induction l with
  | nil => intro acc; simp [withCumulative]
  | cons x rest ih =>
    intro acc
    obtain ⟨m, c⟩ := x
    show List.Chain' _ (_ :: withCumulative (acc + c) rest)
    refine List.chain'_cons'.mpr ⟨?_, ih (acc + c)⟩
    intro q hq
    cases rest with
    | nil => simp [withCumulative] at hq
    | cons z rs =>
      obtain ⟨m', c'⟩ := z
      rw [wc_head] at hq
      simp only [Option.mem_def, Option.some_inj] at hq
      subst hq
      rfl

lemma floor_add_between (x y : ℚ) :
    Int.floor x + Int.floor y ≤ Int.floor (x + y) ∧
      Int.floor (x + y) ≤ Int.floor x + Int.floor y + 1 := by
  constructor
  · apply Int.le_floor.mpr
    push_cast
    exact add_le_add (Int.floor_le x) (Int.floor_le y)
  · have hx := Int.lt_floor_add_one x
    have hy := Int.lt_floor_add_one y
    have h2 : Int.floor (x + y) < Int.floor x + Int.floor y + 2 := by
      apply Int.floor_lt.mpr
      push_cast
      linarith
    omega

/-- C1 counterexample: GenBank's transform emits the raw stored totals
as the cumulative series; on a store whose totals decrease (the very
anomaly case the claim covers), the increment is clamped to zero but the
emitted cumulative decreases from 100 to 50, so the emitted timeseries
is not non-decreasing. -/
theorem c1_counterexample :
    ¬ ∀ c ∈ emittedCumulatives (genbankTransform (some
        [{ release := 260, year := 2020, bases := 100 },
         { release := 261, year := 2021, bases := 50 }])),
      cumulativeNondecreasing c := by decide

/-- C1 (amended): the cumulative sequences emitted by every collector's
transform are non-decreasing, provided — for GenBank and UniProt, whose
emitted cumulatives are the raw stored totals — the stored totals are
themselves non-decreasing; SRA, PDB (over a store written by collect)
and CellxGene are non-decreasing unconditionally, their cumulatives
being running sums of non-negative counts (CellxGene after a
non-negative uniform scaling).  When a stored total decreases, the
increment is clamped to zero but the emitted cumulative follows the raw
total downward. -/
theorem c1_amended_monotonicity
    (g : List GBRow)
    (hg : List.Chain' (fun a b : GBRow => a.bases ≤ b.bases) g)
    (u : List (Nat × Nat))
    (hu : List.Chain' (fun a b : Nat × Nat => a.2 ≤ b.2) u)
    (files : List (List (Option Nat)))
    (annuals : List (Nat × Nat))
    (store : Nat × List (Option String × Nat)) (pub : String → Option Nat) :
    (∀ c ∈ emittedCumulatives (genbankTransform (some g)),
      cumulativeNondecreasing c)
    ∧ (∀ c ∈ emittedCumulatives (uniprotTransform (some u)),
      cumulativeNondecreasing c)
    ∧ (∀ c ∈ emittedCumulatives (sraTransform files),
      cumulativeNondecreasing c)
    ∧ (∀ c ∈ emittedCumulatives (pdbTransform (some (pdbCollectRows annuals))),
      cumulativeNondecreasing c)
    ∧ (∀ c ∈ emittedCumulatives (cellxgeneTransform (some store) pub),
      cumulativeNondecreasing c) := by
  refine ⟨?_, ?_, ?_, ?_, ?_⟩
  · intro c hc
    cases hgl : g.getLast? with
    | none => simp [genbankTransform, emittedCumulatives, hgl] at hc
    | some r =>
      simp only [genbankTransform, emittedCumulatives, hgl, List.map_cons,
        List.map_nil, List.mem_singleton] at hc
      subst hc
      unfold cumulativeNondecreasing
      rw [List.chain'_map]
      apply cumPoints_cum_chain
      rw [List.chain'_map]
      exact hg
  · intro c hc
    cases hgl : u.getLast? with
    | none => simp [uniprotTransform, emittedCumulatives, hgl] at hc
    | some r =>
      simp only [uniprotTransform, emittedCumulatives, hgl, List.map_cons,
        List.map_nil, List.mem_singleton] at hc
      subst hc
      unfold cumulativeNondecreasing
      rw [List.chain'_map]
      exact cumPoints_cum_chain u hu 0
  · intro c hc
    by_cases hf : files.isEmpty
    · simp [sraTransform, hf, emittedCumulatives] at hc
    · simp only [sraTransform, hf, if_neg, Bool.false_eq_true, if_false,
        emittedCumulatives, List.map_cons, List.map_nil,
        List.mem_singleton] at hc
      subst hc
      unfold cumulativeNondecreasing sraPoints
      rw [List.map_map, List.chain'_map]
      refine (wc_cum_chain _ 0).imp ?_
      intro a b hab
      show ((a.2.2 : Nat) : Int) ≤ ((b.2.2 : Nat) : Int)
      exact_mod_cast hab
  · intro c hc
    cases hgl : (pdbCollectRows annuals).getLast? with
    | none => simp [pdbTransform, emittedCumulatives, hgl] at hc
    | some r =>
      simp only [pdbTransform, emittedCumulatives, hgl, List.map_cons,
        List.map_nil, List.mem_singleton] at hc
      subst hc
      unfold cumulativeNondecreasing
      rw [List.map_map, List.chain'_map]
      refine (wc_cum_chain _ 0).imp ?_
      intro a b hab
      show ((a.2.2 : Nat) : Int) ≤ ((b.2.2 : Nat) : Int)
      exact_mod_cast hab
  · intro c hc
    simp only [cellxgeneTransform, emittedCumulatives, List.map_cons,
      List.map_nil, List.mem_singleton] at hc
    subst hc
    unfold cumulativeNondecreasing cellxgeneScaledPoints
    rw [List.map_map, List.chain'_map]
    refine (wc_cum_chain _ 0).imp ?_
    intro a b hab
    have hs : (0 : ℚ) ≤ (store.1 : ℚ) / (cxTotal (cxDated store.2 pub) : ℚ) :=
      div_nonneg (Nat.cast_nonneg _) (Nat.cast_nonneg _)
    exact Int.floor_mono (mul_le_mul_of_nonneg_right (by exact_mod_cast hab) hs)

/-- C1 witness: applying the amended theorem to a concrete GenBank store
with non-decreasing totals. -/
theorem c1_amended_monotonicity_witness :
    cumulativeNondecreasing
      ((emittedCumulatives (genbankTransform (some
        [{ release := 260, year := 2020, bases := 100 },
         { release := 261, year := 2021, bases := 150 }]))).getD 0 []) :=
  (c1_amended_monotonicity
    [{ release := 260, year := 2020, bases := 100 },
     { release := 261, year := 2021, bases := 150 }] (by simp)
    [] (by simp) [] [] (0, []) (fun _ => none)).1 _ (by decide)

/-- C2 counterexample: at a clamped GenBank point (stored total falls
from 100 to 50) the emitted value is 0 while the cumulative drops to 50,
so cumulative[1] = 50 differs from cumulative[0] + value[1] = 100 far
beyond relative tolerance 1e-6. -/
theorem c2_counterexample :
    ((emittedPointLists (genbankTransform (some
        [{ release := 260, year := 2020, bases := 100 },
         { release := 261, year := 2021, bases := 50 }]))).all
      consistentRelB) = false := by decide

/-- C2 (amended): the consistency equation holds exactly — not merely
within tolerance — for the cumulative-encoding normalizer shared by
GenBank and UniProt whenever the stored totals are non-decreasing (at a
clamped point, i.e. after a decrease, it fails by the size of the
decrease); for CellxGene's scaled points it holds within one unit
absolutely, the slack that integer truncation of the uniformly scaled
values can introduce (which is inside relative tolerance 1e-6 only when
the cumulative is large enough).  In both cases the first point's
cumulative equals its value exactly. -/
theorem c2_amended_consistency
    (l : List (Nat × Nat))
    (hl : List.Chain' (fun a b : Nat × Nat => a.2 ≤ b.2) l)
    (official : Nat) (dated : List (Nat × Nat)) :
    (firstOK (cumPoints 0 l) ∧ List.Chain' stepExact (cumPoints 0 l))
    ∧ (firstOK (cellxgeneScaledPoints official dated)
       ∧ List.Chain' stepWithin1 (cellxgeneScaledPoints official dated)) := by
  refine ⟨⟨cumPoints_zero_first l, cumPoints_step_chain l hl 0⟩, ?_, ?_⟩
  · intro p hp v hv
    unfold cellxgeneScaledPoints cxMonthly at hp
    cases hm : cellxgeneMonthly dated with
    | nil => simp [hm, withCumulative] at hp
    | cons x t =>
      obtain ⟨m, c⟩ := x
      rw [hm] at hp
      simp only [withCumulative, List.map_cons, List.head?_cons,
        Option.mem_def, Option.some_inj] at hp
      subst hp
      simp only [Option.some_inj] at hv
      subst hv
      show Int.floor (((0 + c : Nat) : ℚ) * _) = Int.floor (((c : Nat) : ℚ) * _)
      rw [Nat.zero_add]
  · unfold cellxgeneScaledPoints
    rw [List.chain'_map]
    refine (wc_sum_chain _ 0).imp ?_
    intro a b hab v hv
    simp only [Option.some_inj] at hv
    subst hv
    have key := floor_add_between
      ((a.2.2 : ℚ) * ((official : ℚ) / (cxTotal dated : ℚ)))
      ((b.2.1 : ℚ) * ((official : ℚ) / (cxTotal dated : ℚ)))
    have hcast : ((b.2.2 : Nat) : ℚ) * ((official : ℚ) / (cxTotal dated : ℚ))
        = (a.2.2 : ℚ) * ((official : ℚ) / (cxTotal dated : ℚ))
          + (b.2.1 : ℚ) * ((official : ℚ) / (cxTotal dated : ℚ)) := by
      rw [hab]
      push_cast
      ring
    constructor
    · show _ + _ ≤ Int.floor ((b.2.2 : ℚ) * _)
      rw [hcast]
      exact key.1
    · show Int.floor ((b.2.2 : ℚ) * _) ≤ _ + _ + 1
      rw [hcast]
      exact key.2

/-- C2 witness: the amended consistency at the spec's own end-to-end
scenario, yearly cumulative totals 100, 250, 400. -/
theorem c2_amended_consistency_witness :
    firstOK (cumPoints 0 [(2020, 100), (2021, 250), (2022, 400)]) ∧
      List.Chain' stepExact (cumPoints 0 [(2020, 100), (2021, 250), (2022, 400)]) :=
  (c2_amended_consistency [(2020, 100), (2021, 250), (2022, 400)]
    (by simp) 1000 [(0, 900)]).1

/-- C3 counterexample: an SRA store containing one file whose single row
has an unparseable date yields zero usable observations, yet transform
returns a successful CollectorOutput with an empty timeseries and a
zero-valued metric instead of failing. -/
theorem c3_counterexample :
    sraTransform [[none]] = Except.ok
      { metrics := [{ id := "sequences", name := "Sequencing Runs",
                      unit := "runs", current_value := 0 }],
        timeseries := [{ metric_id := "sequences", data := [] }],
        update_frequency := "weekly",
        data_license := some "Public Domain" } := rfl

/-- C3 (amended): transform fails only when the raw store itself is
absent; when store files exist but zero raw observations survive parsing
it silently publishes a degenerate output — SRA an empty timeseries with
a zero metric, CellxGene an empty timeseries with the official total as
the metric. -/
theorem c3_amended_degenerate_output
    (files : List (List (Option Nat))) (hne : files ≠ [])
    (hbad : files.flatten.filterMap id = [])
    (official : Nat) (ds : List (Option String × Nat))
    (pub : String → Option Nat) (hda : cxDated ds pub = []) :
    sraTransform files = Except.ok
      { metrics := [{ id := "sequences", name := "Sequencing Runs",
                      unit := "runs", current_value := 0 }],
        timeseries := [{ metric_id := "sequences", data := [] }],
        update_frequency := "weekly",
        data_license := some "Public Domain" }
    ∧ cellxgeneTransform (some (official, ds)) pub = Except.ok
      { metrics := [{ id := "cells", name := "Single Cells", unit := "cells",
                      current_value := (official : Int) }],
        timeseries := [{ metric_id := "cells", data := [] }],
        update_frequency := "quarterly",
        data_license := some "CC BY 4.0" } := by
  constructor
  · cases files with
    | nil => exact absurd rfl hne
    | cons f fs =>
      simp only [sraTransform, sraPoints, sraMonthlyCounts, hbad,
        List.foldl_nil, withCumulative, List.isEmpty_cons,
        Bool.false_eq_true, if_false, List.getLast?_nil, List.map_nil]
  · simp only [cellxgeneTransform, cellxgeneScaledPoints, cxMonthly,
      cellxgeneMonthly, hda, List.foldl_nil, withCumulative, List.map_nil]

/-- C3 witness: the amended behaviour at a concrete store of two
unusable rows and one dataset whose DOI resolves to no date. -/
theorem c3_amended_degenerate_output_witness :
    sraTransform [[none, none]] = Except.ok
      { metrics := [{ id := "sequences", name := "Sequencing Runs",
                      unit := "runs", current_value := 0 }],
        timeseries := [{ metric_id := "sequences", data := [] }],
        update_frequency := "weekly",
        data_license := some "Public Domain" } :=
  (c3_amended_degenerate_output [[none, none]] (by decide) (by decide)
    7 [(some "10.1000/x", 5)] (fun _ => none) (by decide)).1

/-- C4: every collector's transform fails when the private raw store was
never written by collect(): GenBank, UniProt, PDB and CellxGene read a
store that is absent, SRA finds no parquet files.  The spec's name for
this failure is MissingDataError. -/
theorem c4_missing_store_fails :
    genbankTransform none = Except.error TransformError.missingData
    ∧ uniprotTransform none = Except.error TransformError.missingData
    ∧ pdbTransform none = Except.error TransformError.missingData
    ∧ (∀ pub : String → Option Nat,
        cellxgeneTransform none pub = Except.error TransformError.missingData)
    ∧ sraTransform [] = Except.error TransformError.missingData :=
  ⟨rfl, rfl, rfl, fun _ => rfl, rfl⟩

/-- C5: CellxGene's transform multiplies every emitted point's value and
cumulative by the single factor official_total / locally_summed_total
(then truncates to an integer), and the final emitted cumulative equals
the official total exactly, since the locally summed total times the
factor is exactly the official total. -/
theorem c5_scale_correction (official : Nat) (dated : List (Nat × Nat))
    (hne : cxMonthly dated ≠ []) (hT : 0 < cxTotal dated) :
    cellxgeneScaledPoints official dated = (cxMonthly dated).map (fun t =>
      { date := monthDate t.1,
        value := some (Int.floor
          ((t.2.1 : ℚ) * ((official : ℚ) / (cxTotal dated : ℚ)))),
        cumulative := Int.floor
          ((t.2.2 : ℚ) * ((official : ℚ) / (cxTotal dated : ℚ))) })
    ∧ (cellxgeneScaledPoints official dated).getLast?.map
        (fun p => p.cumulative) = some (official : Int) := by
  refine ⟨rfl, ?_⟩
  obtain ⟨e, he⟩ : ∃ e, (cxMonthly dated).getLast? = some e := by
    cases hgl : (cxMonthly dated).getLast? with
    | none => exact absurd (List.getLast?_eq_none_iff.mp hgl) hne
    | some e => exact ⟨e, rfl⟩
  have htot : cxTotal dated = e.2.2 := by unfold cxTotal; rw [he]
  have h0 : ((cxTotal dated : Nat) : ℚ) ≠ 0 := Nat.cast_ne_zero.mpr hT.ne'
  have hmul : ((e.2.2 : Nat) : ℚ) * ((official : ℚ) / (cxTotal dated : ℚ))
      = (official : ℚ) := by
    rw [← htot]
    field_simp
  unfold cellxgeneScaledPoints
  rw [List.getLast?_map, he]
  simp only [Option.map_some']
  rw [hmul, Int.floor_natCast]

/-- C5 witness: the spec's own scenario, locally summed total 900 and
official total 1000: the final emitted cumulative is exactly 1000. -/
theorem c5_scale_correction_witness :
    (cellxgeneScaledPoints 1000 [(0, 900)]).getLast?.map
      (fun p => p.cumulative) = some (1000 : Int) :=
  (c5_scale_correction 1000 [(0, 900)] (by decide) (by decide)).2

lemma fetchGo_attemptsUsed_le (out : Nat → FetchOutcome) :
    ∀ fuel attempt delays,
      (fetchGo out attempt fuel delays).attemptsUsed ≤ attempt + fuel := by
  intro fuel
  induction fuel with
  | zero => intro attempt delays; simp [fetchGo]
  | succ n ih =>
    intro attempt delays
    cases h : out attempt with
    | ok d => simp [fetchGo, h]
    | notFound => simp [fetchGo, h]
    | rateLimited =>
      simp only [fetchGo, h]
      exact le_trans (ih (attempt + 1) _) (by omega)
    | timedOut =>
      simp only [fetchGo, h]
      exact le_trans (ih (attempt + 1) _) (by omega)
    | connectionFailed =>
      simp only [fetchGo, h]
      exact le_trans (ih (attempt + 1) _) (by omega)
    | otherStatus =>
      simp only [fetchGo, h]
      exact le_trans (ih (attempt + 1) _) (by omega)

/-- C6 counterexample: an undeclared outcome — an HTTP status that is
neither 200, 404 nor 429, such as a 500 — is retried through all three
attempts with no backoff delay at all, so repetition is not restricted
to the declared transient outcomes and is not always backed off. -/
theorem c6_counterexample :
    ¬ repeatedOnlyOnDeclared (fun _ => FetchOutcome.otherStatus) := by decide

/-- C6 (amended): a lookup makes at most 3 attempts; a 404 on the first
attempt returns a definitive null immediately with no retry and no
delay; 429 (and a timeout) retries with exponential backoff 2^attempt —
two rate-limits then a success yields the success with delays [1, 2];
but a connection error or any other unhandled status also causes a
retry, with no backoff delay. -/
theorem c6_amended_retry_policy (out : Nat → FetchOutcome) (d : Option String) :
    (fetchSingleDoi out).attemptsUsed ≤ 3
    ∧ (out 0 = FetchOutcome.notFound →
        fetchSingleDoi out = { date := none, delays := [], attemptsUsed := 1 })
    ∧ (out 0 = FetchOutcome.rateLimited → out 1 = FetchOutcome.rateLimited →
        out 2 = FetchOutcome.ok d →
        fetchSingleDoi out = { date := d, delays := [1, 2], attemptsUsed := 3 })
    ∧ (out 0 = FetchOutcome.connectionFailed → out 1 = FetchOutcome.ok d →
        fetchSingleDoi out = { date := d, delays := [], attemptsUsed := 2 })
    ∧ (out 0 = FetchOutcome.otherStatus → out 1 = FetchOutcome.ok d →
        fetchSingleDoi out = { date := d, delays := [], attemptsUsed := 2 }) := by
  refine ⟨fetchGo_attemptsUsed_le out 3 0 [], ?_, ?_, ?_, ?_⟩
  · intro h0
    simp [fetchSingleDoi, fetchGo, h0]
  · intro h0 h1 h2
    simp [fetchSingleDoi, fetchGo, h0, h1, h2]
  · intro h0 h1
    simp [fetchSingleDoi, fetchGo, h0, h1]
  · intro h0 h1
    simp [fetchSingleDoi, fetchGo, h0, h1]

/-- C6 witness: the spec's retry scenario, rate-limited twice then
succeeding, applied through the amended theorem at a concrete outcome
sequence. -/
theorem c6_amended_retry_policy_witness :
    fetchSingleDoi (fun i => if i < 2 then FetchOutcome.rateLimited
        else FetchOutcome.ok (some "2021-03-01"))
      = { date := some "2021-03-01", delays := [1, 2], attemptsUsed := 3 } :=
  ((c6_amended_retry_policy
    (fun i => if i < 2 then FetchOutcome.rateLimited
      else FetchOutcome.ok (some "2021-03-01"))
    (some "2021-03-01")).2.2.1 (by decide) (by decide) (by decide))

/-- C7 counterexample: with an empty cache and two DOIs to fetch, the
batch trace is two completions followed by a single durable save; no
save separates the two completions, so the first completed result lived
only in process memory while the second lookup ran — a crash there loses
it. -/
theorem c7_counterexample :
    ¬ immediatelyPersisted
      (getPubDatesEvents [] ["10.1/a", "10.1/b"] ["10.1/a", "10.1/b"]) := by
  decide

/-- C7 (amended): in-memory recording happens per completion but the
durable cache is written at most once per batch, and that single write
is after every completion: every completion event is followed by a later
save event, so results persist only when the whole batch finishes. -/
theorem c7_amended_save_at_batch_end (cache : List (String × Option String))
    (dois order : List String) :
    ((getPubDatesEvents cache dois order).count CacheEvent.savedCache ≤ 1)
    ∧ (∀ i d, (getPubDatesEvents cache dois order).getD i CacheEvent.savedCache
          = CacheEvent.completed d →
        ∃ j, i < j ∧
          (getPubDatesEvents cache dois order).getD j CacheEvent.savedCache
            = CacheEvent.savedCache) := by
  by_cases ht : (dois.filter fun d => (cacheLookup cache d).isNone).isEmpty
  · constructor
    · simp [getPubDatesEvents, ht]
    · intro i d h
      simp [getPubDatesEvents, ht, List.getD] at h
  · constructor
    · simp only [getPubDatesEvents, ht, Bool.false_eq_true, if_false,
        List.count_append]
      have hz : (order.map CacheEvent.completed).count CacheEvent.savedCache = 0 := by
        rw [List.count_eq_zero]
        simp
      rw [hz]
      simp
    · intro i d h
      simp only [getPubDatesEvents, ht, Bool.false_eq_true, if_false] at h
      have hi : i < order.length := by
        by_contra hge
        rw [not_lt] at hge
        have hlen : (order.map CacheEvent.completed).length ≤ i := by
          simpa using hge
        rw [List.getD_append_right _ _ _ _ hlen] at h
        cases hk : i - (order.map CacheEvent.completed).length with
        | zero => rw [hk] at h; simp [List.getD] at h
        | succ n => rw [hk] at h; simp [List.getD] at h
      refine ⟨order.length, hi, ?_⟩
      simp only [getPubDatesEvents, ht, Bool.false_eq_true, if_false]
      have hlen2 : (order.map CacheEvent.completed).length ≤ order.length := by
        simp
      rw [List.getD_append_right _ _ _ _ hlen2]
      simp [List.getD]

/-- C7 witness: the amended theorem applied to a concrete one-DOI batch. -/
theorem c7_amended_save_at_batch_end_witness :
    (getPubDatesEvents [] ["10.2/x"] ["10.2/x"]).count CacheEvent.savedCache ≤ 1 :=
  (c7_amended_save_at_batch_end [] ["10.2/x"] ["10.2/x"]).1

lemma upsertYear_idem (m : List GBRow) (x : GBRow) :
    upsertYear (upsertYear m x) x = upsertYear m x := by
  induction m with
  | nil => simp [upsertYear]
  | cons s m ih =>
    by_cases h1 : x.year < s.year
    · simp [upsertYear, h1, lt_irrefl]
    · by_cases h2 : x.year = s.year
      · by_cases h3 : s.release ≤ x.release
        · simp [upsertYear, h1, h2, h3, lt_irrefl]
        · simp [upsertYear, h1, h2, h3]
      · simp [upsertYear, h1, h2, ih]

/-- C8 counterexample: the SRA per-period rule counts rows, so feeding
the normalization a raw observation twice (two rows in month 5) yields a
different output (count 2, cumulative 2) from feeding it once (count 1,
cumulative 1) — the sum-within-period rule is not idempotent. -/
theorem c8_counterexample :
    sraPoints [some 5, some 5] ≠ sraPoints [some 5] := by decide

/-- C8 (amended): deduplication-by-period is idempotent for the
keep-latest-release rule (GenBank): an input in which some raw
observation appears twice deduplicates to exactly the same list as the
input in which it appears once.  The SRA sum-within-period rule is
additive over rows, not idempotent. -/
theorem c8_amended_keep_latest_idempotent (l₁ l₂ : List GBRow) (x : GBRow) :
    dedupByYearLatest (l₁ ++ x :: x :: l₂) = dedupByYearLatest (l₁ ++ x :: l₂) := by
  unfold dedupByYearLatest
  rw [List.foldl_append, List.foldl_append]
  simp only [List.foldl_cons]
  rw [upsertYear_idem]

/-- C9: resolving a source id that is not registered fails with the
unknown-collector error whose message lists the currently registered
ids (the spec's UnknownSourceError), and never yields a collector. -/
theorem c9_unknown_source (reg : List (String × CollectorTag)) (id : String)
    (h : id ∉ registryKeys reg) :
    getCollector reg id
      = Except.error (unknownCollectorMessage id (registryKeys reg))
    ∧ ∀ c, getCollector reg id ≠ Except.ok c := by
  have hfind : reg.find? (fun p => p.1 == id) = none := by
    rw [List.find?_eq_none]
    intro x hx hbeq
    rw [beq_iff_eq] at hbeq
    exact h (List.mem_map.mpr ⟨x, hx, hbeq⟩)
  have hnone : lookupCollector reg id = none := by
    unfold lookupCollector
    rw [hfind]
    rfl
  constructor
  · unfold getCollector
    rw [hnone]
  · intro c hc
    unfold getCollector at hc
    rw [hnone] at hc
    exact Except.noConfusion hc

/-- C9 witness: resolving the absent id "foo" against the startup
registry produces exactly the error listing the five registered ids. -/
theorem c9_unknown_source_witness :
    getCollector defaultRegistry "foo"
      = Except.error
          (unknownCollectorMessage "foo" (registryKeys defaultRegistry)) :=
  (c9_unknown_source defaultRegistry "foo" (by decide)).1

/-- C10: for every entry of the startup registry, the registered
collector's source_id equals its registry key, and the file name run()
writes for it is that key followed by ".json" — registry key, output
file name and self-reported identity agree. -/
theorem c10_registry_identity :
    (defaultRegistry.all fun p =>
      sourceId p.2 == p.1 && runFileName p.2 == p.1 ++ ".json") = true := by
  decide

/-- C4 witness: the missing-store failure at a concrete publication-date
mapping for the CellxGene conjunct. -/
theorem c4_missing_store_fails_witness :
    cellxgeneTransform none (fun _ => none)
      = Except.error TransformError.missingData :=
  c4_missing_store_fails.2.2.2.1 (fun _ => none)

/-- C8 witness: duplicating the 2020 row leaves the deduplicated GenBank
store unchanged. -/
theorem c8_amended_keep_latest_idempotent_witness :
    dedupByYearLatest
      [{ release := 230, year := 2019, bases := 10 },
       { release := 240, year := 2020, bases := 100 },
       { release := 240, year := 2020, bases := 100 }]
      = dedupByYearLatest
        [{ release := 230, year := 2019, bases := 10 },
         { release := 240, year := 2020, bases := 100 }] :=
  c8_amended_keep_latest_idempotent
    [{ release := 230, year := 2019, bases := 10 }] []
    { release := 240, year := 2020, bases := 100 }

end ScalingBio
